import Mathlib

/-!
Verification of the safe query gateway in `chapter06/db_server_safe.py`.

Strings are modelled as `List Char` (`Str`).  Python's `str.upper()` /
`str.strip()` are modelled on the ASCII fragment (SQL text), via
`Char.toUpper` and stripping of the six ASCII whitespace characters that
Python's `strip()` removes.  Python's substring test `kw in s` is modelled
by `decide (kw <:+: s)`.
-/

namespace SafeGateway

abbrev Str := List Char

/-- Convert a Lean string literal to our character-list representation. -/
def strOf (s : String) : Str := s.data

/-- The whitespace characters removed by Python's `str.strip()` and matched by
the regex class `\s` (ASCII fragment): space, tab, newline, carriage return,
vertical tab, form feed. -/
def isPySpace (c : Char) : Bool :=
  c == ' ' || c == '\t' || c == '\n' || c == '\r' ||
  c == Char.ofNat 11 || c == Char.ofNat 12

/-- Python `str.strip()`: drop leading and trailing whitespace. -/
def pyStrip (l : Str) : Str :=
  ((l.dropWhile isPySpace).reverse.dropWhile isPySpace).reverse

/-- `sql.upper().strip()` from `validate_sql_safety` (ASCII model). -/
def normSql (sql : Str) : Str := pyStrip (sql.map Char.toUpper)

/-- The literal `'SELECT'` used by the whitelist layer. -/
def selectKw : Str := strOf "SELECT"

/-- The `dangerous_keywords` list of `validate_sql_safety` (layer 2). -/
def dangerousKeywords : List Str :=
  [strOf "DROP", strOf "DELETE", strOf "INSERT", strOf "UPDATE", strOf "ALTER",
   strOf "CREATE", strOf "TRUNCATE", strOf "REPLACE", strOf "PRAGMA",
   strOf "ATTACH", strOf "DETACH", strOf "VACUUM"]

/-- The mutation keywords of the first dangerous pattern
`;\s*(DROP|DELETE|INSERT|UPDATE)`. -/
def mutKeywords : List Str :=
  [strOf "DROP", strOf "DELETE", strOf "INSERT", strOf "UPDATE"]

/-- After a `;`: skip `\s*` and look for one of the mutation keywords
(`re.search` semantics for the tail of pattern 1). -/
def afterSemi : Str → Bool
  | [] => false
  | c :: rest =>
    mutKeywords.any (fun k => k.isPrefixOf (c :: rest)) ||
    (isPySpace c && afterSemi rest)

/-- Pattern 1, `;\s*(DROP|DELETE|INSERT|UPDATE)`: some `;` followed by
whitespace and a mutation keyword. -/
def patSemicolonMut : Str → Bool
  | [] => false
  | c :: rest => (c == ';' && afterSemi rest) || patSemicolonMut rest

/-- Pattern 2, `--`: the two-character comment marker occurs somewhere. -/
def patDashDash (l : Str) : Bool := decide ((strOf "--") <:+: l)

/-- Scan for `*/` with no intervening newline (the `.*\*/` tail of pattern 3;
`.` does not match a newline in Python's `re`). -/
def blockClose : Str → Bool
  | [] => false
  | c :: rest =>
    (c == '*' && (match rest with | '/' :: _ => true | _ => false)) ||
    (!(c == '\n') && blockClose rest)

/-- Pattern 3, `/\*.*\*/`: an opening `/*` with a closing `*/` later on the
same line. -/
def patBlockComment : Str → Bool
  | [] => false
  | c :: rest =>
    (c == '/' && (match rest with | '*' :: r2 => blockClose r2 | _ => false)) ||
    patBlockComment rest

/-- After a `UNION`: skip non-newline characters and look for `SELECT`
(the `.*SELECT` tail of pattern 4). -/
def unionTail : Str → Bool
  | [] => false
  | c :: rest =>
    selectKw.isPrefixOf (c :: rest) || (!(c == '\n') && unionTail rest)

/-- Pattern 4, `UNION.*SELECT`: a `UNION` followed, with no intervening
newline, by a `SELECT`. -/
def patUnionSelect : Str → Bool
  | [] => false
  | c :: rest =>
    ((strOf "UNION").isPrefixOf (c :: rest) && unionTail (rest.drop 4)) ||
    patUnionSelect rest

/-- Layer 3 of `validate_sql_safety`: some pattern of `dangerous_patterns`
matches (`re.search`) the normalized text. -/
def patternHit (u : Str) : Bool :=
  patSemicolonMut u || patDashDash u || patBlockComment u || patUnionSelect u

/-- `validate_sql_safety(sql)` from `db_server_safe.py`: whitelist of the
`SELECT` prefix, blacklist of forbidden keywords as substrings, then the four
dangerous-pattern checks; `true` means SAFE. -/
def validate_sql_safety (sql : Str) : Bool :=
  if !(selectKw.isPrefixOf (normSql sql)) then false
  else if dangerousKeywords.any (fun kw => decide (kw <:+: normSql sql)) then false
  else if patternHit (normSql sql) then false
  else true

/-- The rejection reason of `validate_sql_safety`, read off the branch that
returns `False` (each branch prints a distinct diagnostic before returning;
the keyword branch reports the first matching keyword in list order, the
pattern branch reports no pattern identity). -/
inductive Verdict where
  | safe
  | notASelect
  | forbiddenKeyword (kw : Str)
  | dangerousPattern
deriving DecidableEq

/-- `validate_sql_safety` instrumented with the diagnostic branch taken. -/
def validateVerdict (sql : Str) : Verdict :=
  if !(selectKw.isPrefixOf (normSql sql)) then Verdict.notASelect
  else
    match dangerousKeywords.find? (fun kw => decide (kw <:+: normSql sql)) with
    | some kw => Verdict.forbiddenKeyword kw
    | none =>
      if patternHit (normSql sql) then Verdict.dangerousPattern
      else Verdict.safe

/-! ## Stateful model of the database operations

Each operation opens a connection, issues statements and (on the paths where
the code calls `conn.close()`) closes it.  `DBState` tracks the number of
open connections and the trace of statements issued to the store; the store
itself is read-only for these operations, so an unchanged trace means the
store was never touched.  The engine (SQLite) is an external collaborator:
its response to the caller-dependent statements is a parameter (`Engine`),
any of which may fail as `sqlite3.Error` does; the fixed catalog query of
`list_tables` is modelled directly from its SQL text over `Engine.master`. -/

/-- A SQLite value. -/
inductive Value where
  | intV (n : Int)
  | textV (s : Str)
  | nullV
deriving DecidableEq

/-- A result row as built by `dict(row)`: a name-keyed record. -/
abbrev Row := List (Str × Value)

/-- A row of the `sqlite_master` catalog (`type`, `name`, `sql`). -/
structure MasterRow where
  typ : Str
  name : Str
  sql : Str
deriving DecidableEq

/-- A row of `PRAGMA table_info(...)`:
`(cid, name, type, notnull, dflt_value, pk)`. -/
structure ColumnInfo where
  cid : Nat
  name : Str
  typ : Str
  notnull : Nat
  dflt : Value
  pk : Nat
deriving DecidableEq

/-- A column descriptor as built by `get_table_schema`. -/
structure ColumnDesc where
  name : Str
  typ : Str
  not_null : Bool
  default_value : Value
  is_primary_key : Bool
deriving DecidableEq

/-- One entry of the `list_tables` result. -/
structure TableRecord where
  table_name : Str
  creation_sql : Str
deriving DecidableEq

/-- The `get_table_schema` result. -/
structure TableSchema where
  table_name : Str
  columns : List ColumnDesc
  record_count : Nat
  sample_data : List Row
deriving DecidableEq

/-- The `execute_safe_query` result (`executed_at` is the clock value at the
time of the call). -/
structure QueryResult where
  sql : Str
  results : List Row
  column_names : List Str
  row_count : Nat
  executed_at : Nat
deriving DecidableEq

/-- The statements the three operations send over a connection. -/
inductive Stmt where
  | foreignKeysOn
  | masterList
  | existsCheck (n : Str)
  | tableInfo (n : Str)
  | sampleRows (n : Str)
  | countRows (n : Str)
  | userQuery (q : Str)
deriving DecidableEq

/-- Statements whose SQL text interpolates the caller-supplied table name
(f-string interpolation in `get_table_schema`); the existence check is
parameterized (`name=?`) and does not. -/
def interpolatesName : Stmt → Bool
  | .tableInfo _ => true
  | .sampleRows _ => true
  | .countRows _ => true
  | _ => false

/-- Observable state: open-connection count, statement trace, clock. -/
structure DBState where
  openConns : Nat
  trace : List Stmt
  now : Nat
deriving DecidableEq

/-- The initial state (connection probe at zero). -/
def sigma0 : DBState := { openConns := 0, trace := [], now := 0 }

/-- Python exceptions raised by the operations: `ValueError` raised by the
code itself, or a `sqlite3.Error` propagating from the engine. -/
inductive PyErr where
  | valueError (msg : Str)
  | sqliteError (msg : Str)
deriving DecidableEq

deriving instance DecidableEq for Except

/-- The engine: the catalog plus the (fallible) responses to the
caller-dependent statements. -/
structure Engine where
  master : List MasterRow
  tableInfo : Str → Except Str (List ColumnInfo)
  sampleRows : Str → Except Str (List Row)
  countRows : Str → Except Str Nat
  runQuery : Str → Except Str (List Row × List Str)

/-- `get_db_connection()`: opens a connection and issues
`PRAGMA foreign_keys = ON` over it. -/
def openConn (s : DBState) : DBState :=
  { s with openConns := s.openConns + 1, trace := s.trace ++ [Stmt.foreignKeysOn] }

/-- `conn.close()`. -/
def closeConn (s : DBState) : DBState :=
  { s with openConns := s.openConns - 1 }

/-- Record a statement issued to the store. -/
def pushStmt (s : DBState) (st : Stmt) : DBState :=
  { s with trace := s.trace ++ [st] }

/-- `LIKE 'sqlite_%'` (SQLite semantics): case-insensitive on ASCII, with
`_` matching any single character and `%` any suffix — i.e. the lower-cased
name starts with `sqlite` and has at least one further character. -/
def likeSqlitePrefix (name : Str) : Bool :=
  (strOf "sqlite").isPrefixOf (name.map Char.toLower) && decide (7 ≤ name.length)

/-- The fixed introspection query of `list_tables`
(`SELECT name, sql FROM sqlite_master WHERE type='table' AND name NOT LIKE
'sqlite_%' ORDER BY name`), evaluated by the engine over its catalog. -/
def masterTablesQuery (m : List MasterRow) : List MasterRow :=
  List.insertionSort (fun a b => a.name ≤ b.name)
    (m.filter (fun r => r.typ == strOf "table" && !(likeSqlitePrefix r.name)))

/-- `list_tables()` from `db_server_safe.py`. -/
def list_tables (e : Engine) (s : DBState) :
    Except PyErr (List TableRecord) × DBState :=
  let s1 := pushStmt (openConn s) Stmt.masterList
  let recs := (masterTablesQuery e.master).map
    (fun r => { table_name := r.name, creation_sql := r.sql : TableRecord })
  (Except.ok recs, closeConn s1)

/-- The message of the `ValueError` raised for an absent table. -/
def tableNotFoundMsg (n : Str) : Str :=
  strOf "テーブル '" ++ n ++ strOf "' は存在しません"

/-- The fixed message of the `ValueError` raised on validator rejection. -/
def rejectionMsg : Str :=
  strOf "× 安全でないSQL文です。SELECT文のみ実行可能です。"

/-- The prefix of the `ValueError` message wrapping an engine error in
`execute_safe_query`. -/
def sqlErrorPrefix : Str := strOf "SQLエラー: "

/-- `get_table_schema(table_name)` from `db_server_safe.py`.  The existence
check is a parameterized catalog lookup; only after it passes are the three
name-interpolating statements issued.  None of those three are guarded by a
handler, so an engine failure there propagates with the connection open. -/
def get_table_schema (e : Engine) (tn : Str) (s : DBState) :
    Except PyErr TableSchema × DBState :=
  let s1 := pushStmt (openConn s) (Stmt.existsCheck tn)
  if e.master.any (fun r => r.typ == strOf "table" && r.name == tn) then
    let s2 := pushStmt s1 (Stmt.tableInfo tn)
    match e.tableInfo tn with
    | Except.error m => (Except.error (PyErr.sqliteError m), s2)
    | Except.ok cols =>
      let columns := cols.map (fun c =>
        { name := c.name, typ := c.typ, not_null := c.notnull != 0,
          default_value := c.dflt, is_primary_key := c.pk != 0 : ColumnDesc })
      let s3 := pushStmt s2 (Stmt.sampleRows tn)
      match e.sampleRows tn with
      | Except.error m => (Except.error (PyErr.sqliteError m), s3)
      | Except.ok sample =>
        let s4 := pushStmt s3 (Stmt.countRows tn)
        match e.countRows tn with
        | Except.error m => (Except.error (PyErr.sqliteError m), s4)
        | Except.ok cnt =>
          (Except.ok { table_name := tn, columns := columns,
                       record_count := cnt, sample_data := sample },
           closeConn s4)
  else
    (Except.error (PyErr.valueError (tableNotFoundMsg tn)), closeConn s1)

/-- `execute_safe_query(sql)` from `db_server_safe.py`: validate before any
connection is opened; on an engine error the `except sqlite3.Error` handler
closes the connection and re-raises a `ValueError` wrapping the engine
message. -/
def execute_safe_query (e : Engine) (sql : Str) (s : DBState) :
    Except PyErr QueryResult × DBState :=
  if validate_sql_safety sql then
    let s1 := pushStmt (openConn s) (Stmt.userQuery sql)
    match e.runQuery sql with
    | Except.error m =>
      (Except.error (PyErr.valueError (sqlErrorPrefix ++ m)), closeConn s1)
    | Except.ok rc =>
      (Except.ok { sql := sql, results := rc.1, column_names := rc.2,
                   row_count := rc.1.length, executed_at := s.now },
       closeConn s1)
  else
    (Except.error (PyErr.valueError rejectionMsg), s)

/-- Does the result carry a propagating `sqlite3.Error`? -/
def isEngineErr {α : Type} : Except PyErr α → Bool
  | Except.error (PyErr.sqliteError _) => true
  | _ => false

/-- A small well-behaved engine: one table `users`. -/
def engA : Engine where
  master := [{ typ := strOf "table", name := strOf "users",
               sql := strOf "CREATE TABLE users (id INTEGER PRIMARY KEY)" }]
  tableInfo := fun _ =>
    Except.ok [{ cid := 0, name := strOf "id", typ := strOf "INTEGER",
                 notnull := 0, dflt := Value.nullV, pk := 1 }]
  sampleRows := fun _ => Except.ok []
  countRows := fun _ => Except.ok 0
  runQuery := fun _ => Except.ok ([], [])

/-- An engine whose catalog holds a table named `A B`; the interpolated
`PRAGMA table_info(A B)` is malformed SQL and fails. -/
def engBad : Engine where
  master := [{ typ := strOf "table", name := strOf "A B",
               sql := strOf "CREATE TABLE [A B] (x INTEGER)" }]
  tableInfo := fun _ => Except.error (strOf "near B: syntax error")
  sampleRows := fun _ => Except.ok []
  countRows := fun _ => Except.ok 0
  runQuery := fun _ => Except.ok ([], [])

/-- An engine rejecting every user query (e.g. a missing table). -/
def engFail : Engine where
  master := []
  tableInfo := fun _ => Except.error (strOf "no such table")
  sampleRows := fun _ => Except.error (strOf "no such table")
  countRows := fun _ => Except.error (strOf "no such table")
  runQuery := fun _ => Except.error (strOf "no such table: missing")

/-- An engine whose catalog holds a table `sqliteZ`: a non-system table whose
name does not start with `sqlite_`, yet matches `LIKE 'sqlite_%'` because
`_` is a single-character wildcard. -/
def engZ : Engine where
  master := [{ typ := strOf "table", name := strOf "sqliteZ",
               sql := strOf "CREATE TABLE sqliteZ (x INTEGER)" }]
  tableInfo := fun _ => Except.ok []
  sampleRows := fun _ => Except.ok []
  countRows := fun _ => Except.ok 0
  runQuery := fun _ => Except.ok ([], [])

/-! ## Helper lemmas -/

/-- A nonempty substring made of non-whitespace characters survives
`dropWhile isPySpace`. -/
theorem infix_dropWhile_of_not_space {kw l : Str} (hne : kw ≠ [])
    (hns : ∀ c ∈ kw, isPySpace c = false) (h : kw <:+: l) :
    kw <:+: l.dropWhile isPySpace := by
  induction l with
  | nil => exact absurd (List.infix_nil.mp h) hne
  | cons c l ih =>
    rw [List.dropWhile_cons]
    by_cases hc : isPySpace c = true
    · simp only [hc, if_true]
      apply ih
      obtain ⟨s, t, hst⟩ := h
      cases s with
      | nil =>
        cases kw with
        | nil => exact absurd rfl hne
        | cons k ks =>
          simp only [List.nil_append, List.cons_append, List.cons.injEq] at hst
          have hk : isPySpace k = false := hns k (List.mem_cons_self k ks)
          rw [hst.1] at hk
          rw [hk] at hc
          cases hc
      | cons a s' =>
        simp only [List.cons_append, List.cons.injEq] at hst
        exact ⟨s', t, hst.2⟩
    · simp only [Bool.not_eq_true] at hc
      simp only [hc, if_false]
      exact h

/-- A nonempty substring made of non-whitespace characters survives
Python's `strip()`. -/
theorem infix_pyStrip_of_not_space {kw l : Str} (hne : kw ≠ [])
    (hns : ∀ c ∈ kw, isPySpace c = false) (h : kw <:+: l) :
    kw <:+: pyStrip l := by
  unfold pyStrip
  have h1 := infix_dropWhile_of_not_space hne hns h
  have h2 : kw.reverse <:+: (l.dropWhile isPySpace).reverse :=
    List.reverse_infix.mpr h1
  have hne' : kw.reverse ≠ [] := by simpa using hne
  have hns' : ∀ c ∈ kw.reverse, isPySpace c = false := fun c hc =>
    hns c (List.mem_reverse.mp hc)
  have h3 := infix_dropWhile_of_not_space hne' hns' h2
  apply List.reverse_infix.mp
  simpa using h3

/-- Every forbidden keyword is nonempty and whitespace-free. -/
theorem dangerousKeywords_wf :
    ∀ kw ∈ dangerousKeywords, kw ≠ [] ∧ ∀ c ∈ kw, isPySpace c = false := by
  decide

/-- The validator rejects when the whitelist layer fails. -/
theorem validate_false_of_not_select {sql : Str}
    (h : selectKw.isPrefixOf (normSql sql) = false) :
    validate_sql_safety sql = false := by
  simp [validate_sql_safety, h]

/-- The validator rejects when a forbidden keyword occurs in the normalized
text. -/
theorem validate_false_of_kw {sql kw : Str} (hmem : kw ∈ dangerousKeywords)
    (h : kw <:+: normSql sql) : validate_sql_safety sql = false := by
  have hany : dangerousKeywords.any
      (fun kw => decide (kw <:+: normSql sql)) = true :=
    List.any_eq_true.mpr ⟨kw, hmem, decide_eq_true h⟩
  simp [validate_sql_safety, hany]

/-- The validator rejects when a dangerous pattern matches the normalized
text. -/
theorem validate_false_of_patternHit {sql : Str}
    (h : patternHit (normSql sql) = true) : validate_sql_safety sql = false := by
  simp [validate_sql_safety, h]

/-- Case analysis for `get_table_schema`: either an engine error propagates,
or the connection count is restored. -/
theorem gts_engineErr_or_conns_restored (e : Engine) (tn : Str) (s : DBState) :
    isEngineErr (get_table_schema e tn s).1 = true ∨
    (get_table_schema e tn s).2.openConns = s.openConns := by
  unfold get_table_schema
  by_cases hc : e.master.any (fun r => r.typ == strOf "table" && r.name == tn)
  · simp only [hc, if_true]
    cases he : e.tableInfo tn with
    | error m => simp [isEngineErr, pushStmt, openConn]
    | ok cols =>
      cases hs : e.sampleRows tn with
      | error m => simp [isEngineErr, pushStmt, openConn]
      | ok sample =>
        cases hcnt : e.countRows tn with
        | error m => simp [isEngineErr, pushStmt, openConn]
        | ok cnt => simp [closeConn, pushStmt, openConn]
  · simp only [Bool.not_eq_true] at hc
    simp [hc, closeConn, pushStmt, openConn]

/-! ## The claims -/

/-- C1, counterexample: two queries rejected by different validator layers
(statement-type whitelist vs. dangerous pattern) produce **identical**
failures from `execute_safe_query` — the fixed generic `ValueError` — so the
error cannot carry the rejection reason. -/
theorem claim1_counterexample :
    validateVerdict (strOf "UPDATE products SET price = 0") ≠
      validateVerdict (strOf "SELECT 1 --") ∧
    validate_sql_safety (strOf "UPDATE products SET price = 0") = false ∧
    validate_sql_safety (strOf "SELECT 1 --") = false ∧
    execute_safe_query engA (strOf "UPDATE products SET price = 0") sigma0 =
      execute_safe_query engA (strOf "SELECT 1 --") sigma0 := by
  decide

/-- C1, amended: for every query rejected by the Safety Validator,
`execute_safe_query` fails with the one fixed, generic `ValueError` message,
independent of the failing layer or offending keyword/pattern; the specific
reason is only printed as a diagnostic, not carried to the caller. -/
theorem claim1_amended (e : Engine) (sql : Str) (s : DBState)
    (h : validate_sql_safety sql = false) :
    (execute_safe_query e sql s).1 =
      Except.error (PyErr.valueError rejectionMsg) := by
  simp [execute_safe_query, h]

/-- C1, witness for the amended theorem at a concrete rejected query. -/
theorem claim1_witness :
    (execute_safe_query engA (strOf "DROP TABLE users") sigma0).1 =
      Except.error (PyErr.valueError rejectionMsg) :=
  claim1_amended engA (strOf "DROP TABLE users") sigma0 (by decide)

/-- C2, counterexample: `SELECT /* FROM T` contains the block-comment marker
`/*` and `SELECT 9 UNION\nSELECT 8` contains a `UNION...SELECT` sequence,
yet the validator classifies both SAFE (the block-comment regex needs a
closing `*/` on the same line, and `.` in `UNION.*SELECT` does not match a
newline). -/
theorem claim2_counterexample :
    (strOf "/*") <:+: strOf "SELECT /* FROM T" ∧
    validate_sql_safety (strOf "SELECT /* FROM T") = true ∧
    (strOf "UNION\nSELECT 8") <:+: strOf "SELECT 9 UNION\nSELECT 8" ∧
    validate_sql_safety (strOf "SELECT 9 UNION\nSELECT 8") = true := by
  decide

/-- C2, amended: every query containing `--` is UNSAFE; every query whose
normalized text contains a **complete** block comment `/*...*/` with no
newline between the markers is UNSAFE; every query whose normalized text
contains `UNION` followed by `SELECT` with no intervening newline is UNSAFE.
A lone block-comment marker, or a `UNION...SELECT` pair split across lines,
is not rejected by the pattern layer. -/
theorem claim2_amended (sql : Str) :
    ((strOf "--") <:+: sql → validate_sql_safety sql = false) ∧
    (patBlockComment (normSql sql) = true → validate_sql_safety sql = false) ∧
    (patUnionSelect (normSql sql) = true → validate_sql_safety sql = false) := by
  refine ⟨fun h => ?_, fun h => ?_, fun h => ?_⟩
  · have h1 : (strOf "--") <:+: sql.map Char.toUpper := by
      have hm := List.IsInfix.map Char.toUpper h
      have e : (strOf "--").map Char.toUpper = strOf "--" := by decide
      rwa [e] at hm
    have h2 : (strOf "--") <:+: normSql sql :=
      infix_pyStrip_of_not_space (by decide) (by decide) h1
    exact validate_false_of_patternHit
      (by simp [patternHit, patDashDash, decide_eq_true h2])
  · exact validate_false_of_patternHit (by simp [patternHit, h])
  · exact validate_false_of_patternHit (by simp [patternHit, h])

/-- C2, witness for the amended theorem: the `--` clause at a concrete
query. -/
theorem claim2_witness :
    validate_sql_safety (strOf "SELECT 1 --") = false :=
  (claim2_amended (strOf "SELECT 1 --")).1 (by decide)

/-- C3: any query containing a forbidden keyword as a case-insensitive
substring (i.e. the keyword occurs in the uppercased text) is classified
UNSAFE, even past a `SELECT`. -/
theorem claim3_forbidden_keyword_unsafe (sql kw : Str)
    (hmem : kw ∈ dangerousKeywords) (hinf : kw <:+: sql.map Char.toUpper) :
    validate_sql_safety sql = false := by
  obtain ⟨hne, hns⟩ := dangerousKeywords_wf kw hmem
  exact validate_false_of_kw hmem (infix_pyStrip_of_not_space hne hns hinf)

/-- C3, witness: `SELECT * FROM t; DROP TABLE t` contains `DROP` and is
rejected. -/
theorem claim3_witness :
    validate_sql_safety (strOf "SELECT * FROM t; DROP TABLE t") = false :=
  claim3_forbidden_keyword_unsafe _ (strOf "DROP") (by decide) (by decide)

/-- C4: any query whose trimmed, uppercased form does not begin with
`SELECT` (including the empty string) is classified UNSAFE with reason
`NOT_A_SELECT` (the first-layer diagnostic branch). -/
theorem claim4_not_select_verdict (sql : Str)
    (h : selectKw.isPrefixOf (normSql sql) = false) :
    validateVerdict sql = Verdict.notASelect ∧
    validate_sql_safety sql = false := by
  exact ⟨by simp [validateVerdict, h], validate_false_of_not_select h⟩

/-- C4, witness at the empty string. -/
theorem claim4_witness :
    validateVerdict (strOf "") = Verdict.notASelect ∧
    validate_sql_safety (strOf "") = false :=
  claim4_not_select_verdict (strOf "") (by decide)

/-- C10: the whitelist layer is a bare prefix check, not a whole-word check:
`SELECTIONS FROM T` begins with the characters `SELECT` inside the longer
token `SELECTIONS`, matches no keyword or pattern, and is classified SAFE. -/
theorem claim10_prefix_not_word_boundary :
    validate_sql_safety (strOf "SELECTIONS FROM T") = true ∧
    selectKw.isPrefixOf (normSql (strOf "SELECTIONS FROM T")) = true ∧
    (normSql (strOf "SELECTIONS FROM T")).take 7 = strOf "SELECTI" := by
  decide

/-- C5, counterexample: on a store whose catalog holds a table named `A B`,
the interpolated `PRAGMA table_info(A B)` is rejected by the engine after
the existence check passes; `get_table_schema` has no handler there, so the
error propagates with the connection still open (count 1, not 0). -/
theorem claim5_counterexample :
    (get_table_schema engBad (strOf "A B") sigma0).2.openConns = 1 ∧
    sigma0.openConns = 0 ∧
    isEngineErr (get_table_schema engBad (strOf "A B") sigma0).1 = true := by
  decide

/-- C5, amended: `list_tables` and `execute_safe_query` restore the
open-connection count on every path, and `get_table_schema` restores it on
every path except when an engine error escapes from the statements issued
after the existence check (there is no `try/finally`, so that error leaves
the connection open). -/
theorem claim5_amended :
    (∀ (e : Engine) (s : DBState),
      (list_tables e s).2.openConns = s.openConns) ∧
    (∀ (e : Engine) (q : Str) (s : DBState),
      (execute_safe_query e q s).2.openConns = s.openConns) ∧
    (∀ (e : Engine) (tn : Str) (s : DBState),
      isEngineErr (get_table_schema e tn s).1 = false →
      (get_table_schema e tn s).2.openConns = s.openConns) := by
  refine ⟨?_, ?_, ?_⟩
  · intro e s
    simp [list_tables, closeConn, pushStmt, openConn]
  · intro e q s
    unfold execute_safe_query
    by_cases hv : validate_sql_safety q
    · simp only [hv, if_true]
      cases he : e.runQuery q with
      | error m => simp [closeConn, pushStmt, openConn]
      | ok rc => simp [closeConn, pushStmt, openConn]
    · simp only [Bool.not_eq_true] at hv
      simp [hv]
  · intro e tn s h
    rcases gts_engineErr_or_conns_restored e tn s with h1 | h1
    · rw [h] at h1
      cases h1
    · exact h1

/-- C5, witness for the amended theorem: a successful `get_table_schema`
call restores the probe to zero. -/
theorem claim5_witness :
    (get_table_schema engA (strOf "users") sigma0).2.openConns =
      sigma0.openConns :=
  claim5_amended.2.2 engA (strOf "users") sigma0 (by decide)

/-- C6: a query rejected by the validator makes `execute_safe_query` raise
the validation `ValueError` with the state untouched — no connection is
opened, no statement reaches the store, and no Query Result is produced. -/
theorem claim6_rejected_never_touches_store (e : Engine) (sql : Str)
    (s : DBState) (h : validate_sql_safety sql = false) :
    execute_safe_query e sql s =
      (Except.error (PyErr.valueError rejectionMsg), s) := by
  simp [execute_safe_query, h]

/-- C6, witness at `DELETE FROM users`. -/
theorem claim6_witness :
    execute_safe_query engA (strOf "DELETE FROM users") sigma0 =
      (Except.error (PyErr.valueError rejectionMsg), sigma0) :=
  claim6_rejected_never_touches_store engA (strOf "DELETE FROM users") sigma0
    (by decide)

/-- C7: when a validator-approved query is rejected by the engine,
`execute_safe_query` fails with a `ValueError` wrapping (and hence carrying)
the underlying engine message, and the connection is released before the
error propagates. -/
theorem claim7_engine_error_wrapped_and_released (e : Engine) (sql : Str)
    (s : DBState) (m : Str) (hv : validate_sql_safety sql = true)
    (he : e.runQuery sql = Except.error m) :
    (execute_safe_query e sql s).1 =
      Except.error (PyErr.valueError (sqlErrorPrefix ++ m)) ∧
    m <:+: sqlErrorPrefix ++ m ∧
    (execute_safe_query e sql s).2.openConns = s.openConns := by
  refine ⟨?_, ⟨sqlErrorPrefix, [], by simp⟩, ?_⟩
  · simp [execute_safe_query, hv, he]
  · simp [execute_safe_query, hv, he, closeConn, pushStmt, openConn]

/-- C7, witness: an engine rejecting `SELECT * FROM missing`. -/
theorem claim7_witness :
    (execute_safe_query engFail (strOf "SELECT * FROM missing") sigma0).1 =
      Except.error (PyErr.valueError
        (sqlErrorPrefix ++ strOf "no such table: missing")) ∧
    (strOf "no such table: missing") <:+:
      sqlErrorPrefix ++ strOf "no such table: missing" ∧
    (execute_safe_query engFail (strOf "SELECT * FROM missing") sigma0).2.openConns =
      sigma0.openConns :=
  claim7_engine_error_wrapped_and_released engFail
    (strOf "SELECT * FROM missing") sigma0 (strOf "no such table: missing")
    (by decide) rfl

/-- C8: on a table name absent from the catalog, `get_table_schema` fails
with the `ValueError` naming the requested table, the connection is closed
before the error is raised, and the only statements issued are the
connection `PRAGMA` and the parameterized existence check — no
name-interpolating statement is issued. -/
theorem claim8_table_not_found (e : Engine) (tn : Str) (s : DBState)
    (h : e.master.any (fun r => r.typ == strOf "table" && r.name == tn) = false) :
    (get_table_schema e tn s).1 =
      Except.error (PyErr.valueError (tableNotFoundMsg tn)) ∧
    tn <:+: tableNotFoundMsg tn ∧
    (get_table_schema e tn s).2.openConns = s.openConns ∧
    (get_table_schema e tn s).2.trace =
      s.trace ++ [Stmt.foreignKeysOn, Stmt.existsCheck tn] ∧
    ∀ st ∈ [Stmt.foreignKeysOn, Stmt.existsCheck tn],
      interpolatesName st = false := by
  refine ⟨?_, ⟨strOf "テーブル '", strOf "' は存在しません", rfl⟩, ?_, ?_, ?_⟩
  · simp [get_table_schema, h]
  · simp [get_table_schema, h, closeConn, pushStmt, openConn]
  · simp [get_table_schema, h, closeConn, pushStmt, openConn]
  · intro st hst
    simp only [List.mem_cons, List.not_mem_nil, or_false] at hst
    rcases hst with rfl | rfl <;> rfl

/-- C8, witness at `get_table_schema("nonexistent")`. -/
theorem claim8_witness :
    (get_table_schema engA (strOf "nonexistent") sigma0).1 =
      Except.error (PyErr.valueError (tableNotFoundMsg (strOf "nonexistent"))) ∧
    (strOf "nonexistent") <:+: tableNotFoundMsg (strOf "nonexistent") ∧
    (get_table_schema engA (strOf "nonexistent") sigma0).2.openConns =
      sigma0.openConns ∧
    (get_table_schema engA (strOf "nonexistent") sigma0).2.trace =
      sigma0.trace ++ [Stmt.foreignKeysOn, Stmt.existsCheck (strOf "nonexistent")] ∧
    ∀ st ∈ [Stmt.foreignKeysOn, Stmt.existsCheck (strOf "nonexistent")],
      interpolatesName st = false :=
  claim8_table_not_found engA (strOf "nonexistent") sigma0 (by decide)

/-- The `list_tables` result as the spec's words describe it: the `table`
catalog entries whose names do not start with the literal prefix `sqlite_`,
ordered by name. -/
def specListTables (m : List MasterRow) : List TableRecord :=
  (List.insertionSort (fun a b : MasterRow => a.name ≤ b.name)
    (m.filter (fun r =>
      r.typ == strOf "table" && !((strOf "sqlite_").isPrefixOf r.name)))).map
    (fun r => { table_name := r.name, creation_sql := r.sql })

/-- C9, counterexample: a store with a (real, creatable) table `sqliteZ` —
whose name does **not** start with `sqlite_` — yields an empty
`list_tables` result, because `_` in `NOT LIKE 'sqlite_%'` is a
single-character wildcard; the spec-described result contains the table. -/
theorem claim9_counterexample :
    (list_tables engZ sigma0).1 = Except.ok [] ∧
    (strOf "sqlite_").isPrefixOf (strOf "sqliteZ") = false ∧
    specListTables engZ.master =
      [{ table_name := strOf "sqliteZ",
         creation_sql := strOf "CREATE TABLE sqliteZ (x INTEGER)" }] := by
  decide

/-- C9, amended: `list_tables` returns, ordered by name ascending, exactly
the records (name, creation statement) of the catalog's `table` entries
whose names do not match `LIKE 'sqlite_%'` — i.e. whose lower-cased names do
not consist of `sqlite` followed by at least one character.  All names with
the literal `sqlite_` prefix are excluded, but so are names like `sqliteZ`. -/
theorem claim9_amended (e : Engine) (s : DBState) :
    ∃ l, (list_tables e s).1 = Except.ok l ∧
      l.Pairwise (fun a b => a.table_name ≤ b.table_name) ∧
      l.Perm ((e.master.filter (fun r =>
          r.typ == strOf "table" && !(likeSqlitePrefix r.name))).map
        (fun r => { table_name := r.name, creation_sql := r.sql })) := by
  haveI ht : IsTotal MasterRow (fun a b => a.name ≤ b.name) :=
    ⟨fun a b => le_total a.name b.name⟩
  haveI htr : IsTrans MasterRow (fun a b => a.name ≤ b.name) :=
    ⟨fun _ _ _ h1 h2 => le_trans h1 h2⟩
  refine ⟨_, rfl, ?_, ?_⟩
  · show (List.map _ (masterTablesQuery e.master)).Pairwise _
    rw [List.pairwise_map]
    exact List.sorted_insertionSort (fun a b : MasterRow => a.name ≤ b.name) _
  · show (List.map _ (masterTablesQuery e.master)).Perm _
    exact (List.perm_insertionSort (fun a b : MasterRow => a.name ≤ b.name) _).map _

end SafeGateway
